import Mathlib

namespace GolfCam

/-- A filesystem path, modelled as a base name (stem) plus an extension,
mirroring pathlib Path stem and suffix as used throughout swing_camera.py. -/
structure FsPath where
  stem : String
  ext : String
deriving DecidableEq, Repr

/-- Character-list version of a startsWith test, used to model glob matching. -/
def charListStartsWith : List Char → List Char → Bool
  | [], _ => true
  | _ :: _, [] => false
  | a :: as, b :: bs => a == b && charListStartsWith as bs

/-- Whether the string s starts with the string pre. -/
def strStartsWith (pre s : String) : Bool :=
  charListStartsWith pre.data s.data

/-- Launch Monitor state machine (class LMState in swing_camera.py). -/
inductive LMState
  | idle
  | armed
  | processing
deriving DecidableEq, Repr

/-- Configuration snapshot, the keys of the controller config dict that the
embedded operations read (swing_camera.py _load_config defaults). -/
structure Config where
  width : Nat
  height : Nat
  fps : Nat
  duration : Nat
  fmt : String
  upload_enabled : Bool
  lm_max_recording_duration : Nat
deriving DecidableEq, Repr

/-- Controller-visible mutable state of SwingCamera, together with the list of
files that exist in the output directory (the relevant slice of the
filesystem).  lmCancelEvent models whether lm_cancel_event is set. -/
structure CtrlState where
  recording : Bool
  lmState : LMState
  lmTempFile : Option FsPath
  lmStartTime : Option Nat
  lmCancelEvent : Bool
  files : List FsPath
deriving DecidableEq, Repr

/-- Initial SwingCamera state right after __init__ with an empty output dir. -/
def initState : CtrlState :=
  { recording := false
    lmState := LMState.idle
    lmTempFile := none
    lmStartTime := none
    lmCancelEvent := false
    files := [] }

/-- Writing a file: the OS overwrites an existing file of the same path, so
the path appears exactly once afterwards. -/
def writeFile (p : FsPath) (files : List FsPath) : List FsPath :=
  if p ∈ files then files else p :: files

/-- Deleting the file at path p if it exists, mirroring the repeated Python
idiom: if path.exists then os.remove path. -/
def removeIfExists (p : FsPath) (files : List FsPath) : List FsPath :=
  if p ∈ files then files.erase p else files

/-- Every backend record implementation rewrites an .h264 output path to .mp4
before writing (camera_backends.py lines 239, 339, 443) and returns the
rewritten path. -/
def normalizeExt (p : FsPath) : FsPath :=
  if p.ext == "h264" then { p with ext := "mp4" } else p

/-- The sidecar metadata path: video_path.with_suffix with a json suffix. -/
def sidecar (p : FsPath) : FsPath :=
  { p with ext := "json" }

/-! ### Backend record polling loops (camera_backends.py)

Time is discretised into polling ticks.  A cancellation signal is modelled as
a function from tick to Bool (whether the event is set when polled at that
tick); the record methods receive it as an Option because the cancel_event
parameter defaults to None. -/

/-- The Python test: cancel_event and cancel_event.is_set, at poll time t. -/
def cancelSet : Option (Nat → Bool) → Nat → Bool
  | none, _ => false
  | some c, t => c t

/-- PiCamera2Backend.record polling loop (lines 266 to 272): while elapsed is
below duration, break if the cancel event is set, else sleep 100ms.  One tick
is one 100ms sleep; fuel is the number of ticks remaining until the duration
elapses, t the ticks elapsed so far.  Returns the ticks elapsed on return. -/
def piPollLoop (cancel : Option (Nat → Bool)) : Nat → Nat → Nat
  | 0, t => t
  | fuel + 1, t => if cancelSet cancel t then t else piPollLoop cancel fuel (t + 1)

/-- Elapsed ticks of a PiCamera2Backend.record call of durTicks ticks. -/
def piRecordElapsed (cancel : Option (Nat → Bool)) (durTicks : Nat) : Nat :=
  piPollLoop cancel durTicks 0

/-- OpenCVBackend.record loop (lines 378 to 391): while elapsed is below
duration, break if the cancel event is set, read a frame (readOk says whether
the read succeeds), write it, else break.  One tick is one frame iteration.
Returns the iterations completed (equal to frames written while reads
succeed). -/
def cvLoop (cancel : Option (Nat → Bool)) (readOk : Nat → Bool) : Nat → Nat → Nat
  | 0, t => t
  | fuel + 1, t =>
    if cancelSet cancel t then t
    else if readOk t then cvLoop cancel readOk fuel (t + 1)
    else t

/-- Iterations completed by an OpenCVBackend.record call of durIters ticks. -/
def cvRecordIters (cancel : Option (Nat → Bool)) (readOk : Nat → Bool)
    (durIters : Nat) : Nat :=
  cvLoop cancel readOk durIters 0

/-- DemoBackend.record frame loop (lines 460 to 480): for i in range of
num_frames, write one frame.  The loop body never consults the cancel
event. -/
def demoFrameLoop : Nat → Nat → Nat
  | 0, written => written
  | n + 1, written => demoFrameLoop n (written + 1)

/-- Frames produced by DemoBackend.record: num_frames is fps times duration
(line 460); the received cancel event is never read inside the loop, and the
no-cv2 fallback sleeps the full duration (line 487) without polling. -/
def demoRecordFrames (fps duration : Nat) (_cancel : Option (Nat → Bool)) : Nat :=
  demoFrameLoop (fps * duration) 0

/-! ### Capture controller operations (swing_camera.py)

Nondeterminism of the outside world is passed in as explicit parameters: the
timestamp string, whether the backend record call raises, whether the sidecar
write raises, and the outcome of the external ffmpeg process. -/

/-- Whether a delegated call (backend record, metadata write) returns
normally or raises an exception. -/
inductive RecOutcome
  | ok
  | exn
deriving DecidableEq, Repr

/-- Outcome of the external ffmpeg subprocess run inside _extract_clip:
normal exit with a status code, the 30s timeout (subprocess.TimeoutExpired),
or any other exception while launching or running it. -/
inductive ProcOutcome
  | exit (code : Int)
  | timeout
  | launchFailure
deriving DecidableEq, Repr

/-- The output path capture_swing and shot_detected build for a base name
(lines 119 to 122 and 454 to 457): .h264 when the configured format is h264,
else .mp4. -/
def outputPathFor (cfg : Config) (filename : String) : FsPath :=
  if cfg.fmt == "h264" then { stem := filename, ext := "h264" }
  else { stem := filename, ext := "mp4" }

/-- capture_swing (lines 102 to 151).  Returns the next state and the Python
return value: the recorded path on success, None (here none) when already
recording or when any exception was caught.  recOutcome tells whether
backend.record raises, metaOutcome whether the _save_metadata file write
raises; on a normal record return the backend has written the
extension-normalized file and returned its path. -/
def capture_swing (cfg : Config) (timestamp : String) (customName : Option String)
    (recOutcome : RecOutcome) (metaOutcome : RecOutcome) (s : CtrlState) :
    CtrlState × Option FsPath :=
  if s.recording then (s, none)
  else
    let filename := match customName with
      | some n => n
      | none => "swing_" ++ timestamp
    let output_path := outputPathFor cfg filename
    -- try: self.recording = True; actual = backend.record(output_path, duration)
    match recOutcome with
    | RecOutcome.exn =>
      -- except: recording = False; return None
      ({ s with recording := false }, none)
    | RecOutcome.ok =>
      let actual := normalizeExt output_path
      let s1 : CtrlState :=
        { s with recording := false, files := writeFile actual s.files }
      match metaOutcome with
      | RecOutcome.ok =>
        -- _save_metadata writes the sidecar json next to the video
        ({ s1 with files := writeFile (sidecar actual) s1.files }, some actual)
      | RecOutcome.exn =>
        -- the open or json.dump inside _save_metadata raised; the outer
        -- except catches it, sets recording = False again and returns None
        ({ s1 with recording := false }, none)

/-- Return value of arm_launch_monitor (a status dict in Python). -/
inductive ArmResult
  | errAlready (st : LMState)
  | errBusy
  | armed (maxDuration : Nat)
deriving DecidableEq, Repr

/-- arm_launch_monitor (lines 391 to 426).  now is the clock reading stored
as the arm timestamp.  The background worker thread it starts is modelled
separately by lmWorker. -/
def arm_launch_monitor (cfg : Config) (timestamp : String) (now : Nat)
    (s : CtrlState) : CtrlState × ArmResult :=
  if s.lmState ≠ LMState.idle then (s, ArmResult.errAlready s.lmState)
  else if s.recording then (s, ArmResult.errBusy)
  else
    let temp : FsPath :=
      if cfg.fmt == "h264" then { stem := "temp_lm_" ++ timestamp, ext := "h264" }
      else { stem := "temp_lm_" ++ timestamp, ext := "mp4" }
    ({ s with lmTempFile := some temp
              lmState := LMState.armed
              lmStartTime := some now
              lmCancelEvent := false },
     ArmResult.armed cfg.lm_max_recording_duration)

/-- The argument tuple the launch-monitor worker passes to backend.record.
Line 560 reads: actual_output_path = self.backend.record(self.lm_temp_file,
max_duration) — the cancel_event parameter is left at its default None. -/
structure RecordCall where
  outputPath : Option FsPath
  duration : Nat
  cancelEvent : Option (Nat → Bool)

/-- The record call _lm_continuous_record makes, translated from line 560. -/
def lmWorkerRecordCall (cfg : Config) (s : CtrlState) : RecordCall :=
  { outputPath := s.lmTempFile
    duration := cfg.lm_max_recording_duration
    cancelEvent := none }

/-- _lm_continuous_record (lines 548 to 584), the body of the background
worker thread, applied to the controller state at the time it runs.  On
RecOutcome.ok the backend record call returned normally after writing the
extension-normalized temp file; the worker then branches on whether the
cancel event is set (line 563).  On RecOutcome.exn the except handler (lines
581 to 584) sets lm_state to IDLE and recording to False, leaving
lm_temp_file and lm_recording_start_time untouched. -/
def lmWorker (recOutcome : RecOutcome) (s : CtrlState) : CtrlState :=
  match recOutcome with
  | RecOutcome.exn =>
    { s with lmState := LMState.idle, recording := false }
  | RecOutcome.ok =>
    let s0 := { s with recording := true }
    let s1 := match s0.lmTempFile with
      | some temp => { s0 with files := writeFile (normalizeExt temp) s0.files }
      | none => s0
    if s1.lmCancelEvent then
      -- cancelled: leave the file for shot_detected or cancel to handle
      { s1 with recording := false }
    else
      -- timeout: reset state, delete the temp file path if it exists
      let files := match s1.lmTempFile with
        | some temp => removeIfExists temp s1.files
        | none => s1.files
      { s1 with lmState := LMState.idle
                lmTempFile := none
                lmStartTime := none
                files := files
                recording := false }

/-- _extract_clip (lines 586 to 640).  Returns the Python bool together with
the updated filesystem: on exit code 0 ffmpeg has written the output and the
input is deleted if it exists; every other outcome returns False and leaves
the filesystem as ffmpeg left it (no deletion by this layer). -/
def extract_clip (input output : FsPath) (files : List FsPath)
    (proc : ProcOutcome) : Bool × List FsPath :=
  match proc with
  | ProcOutcome.exit code =>
    if code = 0 then
      let files1 := writeFile output files
      (true, removeIfExists input files1)
    else (false, files)
  | ProcOutcome.timeout => (false, files)
  | ProcOutcome.launchFailure => (false, files)

/-- Return value of shot_detected (a status dict in Python). -/
inductive ShotResult
  | errNotArmed (st : LMState)
  | success (p : FsPath)
  | errExtract
  | errExn
deriving DecidableEq, Repr

/-- shot_detected (lines 428 to 495).  proc is the ffmpeg outcome,
metaOutcome whether _save_metadata raises.  The join on the worker thread is
a bounded wait whose state effects are modelled separately by lmWorker. -/
def shot_detected (cfg : Config) (timestamp : String) (proc : ProcOutcome)
    (metaOutcome : RecOutcome) (s : CtrlState) : CtrlState × ShotResult :=
  if s.lmState ≠ LMState.armed then (s, ShotResult.errNotArmed s.lmState)
  else
    let s := { s with lmState := LMState.processing, lmCancelEvent := true }
    let output_path := outputPathFor cfg ("swing_" ++ timestamp)
    let res : Bool × List FsPath := match s.lmTempFile with
      | some temp => extract_clip temp output_path s.files proc
      | none => (false, s.files)
    if res.1 then
      match metaOutcome with
      | RecOutcome.ok =>
        ({ s with lmState := LMState.idle
                  lmTempFile := none
                  lmStartTime := none
                  files := writeFile (sidecar output_path) res.2 },
         ShotResult.success output_path)
      | RecOutcome.exn =>
        -- _save_metadata raised: the except handler resets the state
        ({ s with lmState := LMState.idle
                  lmTempFile := none
                  lmStartTime := none
                  files := res.2 },
         ShotResult.errExn)
    else
      ({ s with lmState := LMState.idle
                lmTempFile := none
                lmStartTime := none
                files := res.2 },
       ShotResult.errExtract)

/-- Return value of cancel_launch_monitor. -/
inductive CancelResult
  | alreadyIdle
  | cancelled
deriving DecidableEq, Repr

/-- cancel_launch_monitor (lines 497 to 529). -/
def cancel_launch_monitor (s : CtrlState) : CtrlState × CancelResult :=
  if s.lmState = LMState.idle then (s, CancelResult.alreadyIdle)
  else
    let s := { s with lmCancelEvent := true, lmState := LMState.idle }
    -- join worker with 5s timeout, then delete the temp file if present
    let files := match s.lmTempFile with
      | some temp => removeIfExists temp s.files
      | none => s.files
    ({ s with lmTempFile := none, lmStartTime := none, files := files },
     CancelResult.cancelled)

/-- Return value of get_lm_status. -/
structure LMStatus where
  state : LMState
  recording_duration : Nat
  max_duration : Nat
deriving DecidableEq, Repr

/-- get_lm_status (lines 531 to 546): a pure read of the state. -/
def get_lm_status (cfg : Config) (now : Nat) (s : CtrlState) : LMStatus :=
  { state := s.lmState
    recording_duration := match s.lmStartTime with
      | some t0 => now - t0
      | none => 0
    max_duration := cfg.lm_max_recording_duration }

/-! ### Recording listing and deletion (swing_camera.py) -/

/-- Whether a file name matches the glob pattern used by get_recordings and
delete_all_recordings: swing_ then star then dot then star.  For a name of
the shape stem dot ext this holds exactly when the stem starts with the
six characters swing_ (a dot can never match one of those six literal
characters, and the final dot of the name satisfies the dot of the
pattern). -/
def globSwingMatch (p : FsPath) : Bool :=
  strStartsWith "swing_" p.stem

/-- get_recordings (lines 290 to 311): glob swing matches whose suffix is
.h264 or .mp4 (sorting and metadata loading do not affect which paths are
listed). -/
def get_recordings (files : List FsPath) : List FsPath :=
  files.filter (fun p => globSwingMatch p && (p.ext == "h264" || p.ext == "mp4"))

/-- delete_recording (lines 313 to 349) restricted to its filesystem effect:
raises (modelled as no effect, as delete_all_recordings catches it) when the
file does not exist, otherwise removes the file and, if present, its json
sidecar. -/
def delete_recording (files : List FsPath) (p : FsPath) : List FsPath :=
  if p ∈ files then (files.erase p).erase (sidecar p) else files

/-- delete_all_recordings (lines 351 to 367): snapshot the glob swing matches
with suffix .h264, .mp4 or .json, skip the json ones, and delete each
remaining one in turn. -/
def delete_all_recordings (files : List FsPath) : List FsPath :=
  (files.filter (fun p =>
      globSwingMatch p && (p.ext == "h264" || p.ext == "mp4" || p.ext == "json")
        && !(p.ext == "json"))).foldl delete_recording files

/-! ### Loop lemmas -/

/-- With no cancel event supplied, the PiCamera2 polling loop consumes all of
its fuel: the record call always runs for the full duration. -/
theorem piPollLoop_none (fuel : Nat) : ∀ t : Nat, piPollLoop none fuel t = t + fuel := by
  induction fuel with
  | zero => intro t; simp [piPollLoop]
  | succ n ih =>
    intro t
    simp only [piPollLoop, cancelSet, Bool.false_eq_true, if_false, ih]
    omega

/-- If the cancel signal first becomes set at poll t plus t0, before the fuel
runs out, the PiCamera2 polling loop returns at exactly that poll. -/
theorem piPollLoop_early (c : Nat → Bool) :
    ∀ (t0 fuel t : Nat), t0 < fuel → c (t + t0) = true →
      (∀ i, i < t0 → c (t + i) = false) → piPollLoop (some c) fuel t = t + t0 := by
  intro t0
  induction t0 with
  | zero =>
    intro fuel t hlt hc _
    match fuel, hlt with
    | fuel + 1, _ =>
      have hct : c t = true := by simpa using hc
      simp [piPollLoop, cancelSet, hct]
  | succ n ih =>
    intro fuel t hlt hc hall
    match fuel, hlt with
    | fuel + 1, _ =>
      have h0 : c t = false := by simpa using hall 0 (Nat.succ_pos n)
      have hshift : t + (n + 1) = (t + 1) + n := by omega
      rw [hshift] at hc
      have hall1 : ∀ i, i < n → c ((t + 1) + i) = false := by
        intro i hi
        have := hall (i + 1) (by omega)
        have hsh : t + (i + 1) = (t + 1) + i := by omega
        rwa [hsh] at this
      have := ih fuel (t + 1) (by omega) hc hall1
      simp only [piPollLoop, cancelSet, h0, Bool.false_eq_true, if_false, this]
      omega

/-- Same early-return property for the OpenCV frame loop when every frame
read succeeds. -/
theorem cvLoop_early (c : Nat → Bool) :
    ∀ (t0 fuel t : Nat), t0 < fuel → c (t + t0) = true →
      (∀ i, i < t0 → c (t + i) = false) →
      cvLoop (some c) (fun _ => true) fuel t = t + t0 := by
  intro t0
  induction t0 with
  | zero =>
    intro fuel t hlt hc _
    match fuel, hlt with
    | fuel + 1, _ =>
      have hct : c t = true := by simpa using hc
      simp [cvLoop, cancelSet, hct]
  | succ n ih =>
    intro fuel t hlt hc hall
    match fuel, hlt with
    | fuel + 1, _ =>
      have h0 : c t = false := by simpa using hall 0 (Nat.succ_pos n)
      have hshift : t + (n + 1) = (t + 1) + n := by omega
      rw [hshift] at hc
      have hall1 : ∀ i, i < n → c ((t + 1) + i) = false := by
        intro i hi
        have := hall (i + 1) (by omega)
        have hsh : t + (i + 1) = (t + 1) + i := by omega
        rwa [hsh] at this
      have := ih fuel (t + 1) (by omega) hc hall1
      simp only [cvLoop, cancelSet, h0, Bool.false_eq_true, if_false, if_true, this]
      omega

/-- The demo frame loop writes one frame per unit of fuel, unconditionally. -/
theorem demoFrameLoop_add (n : Nat) : ∀ w : Nat, demoFrameLoop n w = w + n := by
  induction n with
  | zero => intro w; simp [demoFrameLoop]
  | succ m ih =>
    intro w
    simp only [demoFrameLoop, ih]
    omega

/-- DemoBackend.record produces all fps times duration frames whatever the
cancel argument is. -/
theorem demoRecordFrames_eq (fps duration : Nat) (cancel : Option (Nat → Bool)) :
    demoRecordFrames fps duration cancel = fps * duration := by
  simp [demoRecordFrames, demoFrameLoop_add]

/-! ### Concrete fixtures used by the claim theorems -/

/-- A config with the mp4 output format. -/
def cfgM : Config :=
  { width := 640, height := 480, fps := 30, duration := 5, fmt := "mp4"
    upload_enabled := false, lm_max_recording_duration := 10 }

/-- A config with the h264 output format (the default in _load_config). -/
def cfgH : Config :=
  { width := 1456, height := 1088, fps := 120, duration := 10, fmt := "h264"
    upload_enabled := false, lm_max_recording_duration := 60 }

/-! ### Small filesystem lemmas -/

/-- Membership after writing a file. -/
theorem mem_writeFile {q p : FsPath} {files : List FsPath} :
    q ∈ writeFile p files ↔ q = p ∨ q ∈ files := by
  unfold writeFile
  by_cases h : p ∈ files
  · simp only [h, if_true]
    constructor
    · exact Or.inr
    · rintro (rfl | hq)
      · exact h
      · exact hq
  · simp [h, List.mem_cons]

/-- A written file is present afterwards. -/
theorem mem_writeFile_self (p : FsPath) (files : List FsPath) :
    p ∈ writeFile p files :=
  mem_writeFile.mpr (Or.inl rfl)

/-- After removing a path from a duplicate-free file list, it is gone. -/
theorem not_mem_removeIfExists (p : FsPath) {files : List FsPath}
    (hnd : files.Nodup) : p ∉ removeIfExists p files := by
  unfold removeIfExists
  by_cases h : p ∈ files
  · simpa [h] using hnd.not_mem_erase
  · simp [h]

/-- The stem of the capture output path is the requested base name, for both
configured formats and after backend extension normalization. -/
theorem outputPath_stem (cfg : Config) (f : String) :
    (normalizeExt (outputPathFor cfg f)).stem = f := by
  unfold outputPathFor normalizeExt
  by_cases h : cfg.fmt == "h264" <;> simp [h]

/-- The capture output path always ends up with the mp4 extension after
backend normalization (the configured format is either h264, rewritten to
mp4 by every backend, or anything else, giving mp4 directly). -/
theorem outputPath_ext (cfg : Config) (f : String) :
    (normalizeExt (outputPathFor cfg f)).ext = "mp4" := by
  unfold outputPathFor normalizeExt
  by_cases h : cfg.fmt == "h264" <;> simp [h]

/-! ### Claim theorems -/

/-- Claim C1 (code bug).  The claim states that the worker passes the
controller cancellation event to Backend.record so that raising it makes the
in-flight record call return at its next poll.  Line 560 actually calls
backend.record with only the path and the max duration, leaving cancel_event
at its default None: the record call the worker makes carries no cancel
event, so the PiCamera2 polling loop never observes the raised signal and
always runs for the full duration, whereas a call that did carry the raised
signal would return at its very first poll. -/
theorem C1_worker_record_call_lacks_cancel_signal :
    (lmWorkerRecordCall cfgM ((arm_launch_monitor cfgM "t0" 0 initState).1)).cancelEvent = none
    ∧ (∀ d : Nat,
        piRecordElapsed
          ((lmWorkerRecordCall cfgM ((arm_launch_monitor cfgM "t0" 0 initState).1)).cancelEvent)
          d = d)
    ∧ piRecordElapsed (some (fun _ => true)) 100 = 0 := by
  refine ⟨rfl, ?_, ?_⟩
  · intro d
    show piRecordElapsed none d = d
    simp [piRecordElapsed, piPollLoop_none]
  · have h := piPollLoop_early (fun _ => true) 0 100 0 (by omega) rfl
      (fun i hi => absurd hi (Nat.not_lt_zero i))
    simpa [piRecordElapsed] using h

/-- The launch-monitor transient invariant stated by the spec: the temp file
path and the arm timestamp are set exactly when the state is not Idle. -/
def lmTransientsConsistent (s : CtrlState) : Prop :=
  (s.lmTempFile ≠ none ∧ s.lmStartTime ≠ none) ↔ s.lmState ≠ LMState.idle

instance (s : CtrlState) : Decidable (lmTransientsConsistent s) := by
  unfold lmTransientsConsistent
  infer_instance

/-- Claim C2 (code bug).  Arming from the initial state and then running the
worker through its exception path (backend.record raising, lines 581 to 584)
ends with state Idle while lm_temp_file and lm_recording_start_time are
still set: the stated invariant is violated after the worker terminates via
its exception path. -/
theorem C2_worker_exception_leaves_stale_transients :
    (lmWorker RecOutcome.exn (arm_launch_monitor cfgM "t0" 0 initState).1).lmState
        = LMState.idle
    ∧ (lmWorker RecOutcome.exn (arm_launch_monitor cfgM "t0" 0 initState).1).lmTempFile
        = some { stem := "temp_lm_t0", ext := "mp4" }
    ∧ (lmWorker RecOutcome.exn (arm_launch_monitor cfgM "t0" 0 initState).1).lmStartTime
        = some 0
    ∧ ¬ lmTransientsConsistent
        (lmWorker RecOutcome.exn (arm_launch_monitor cfgM "t0" 0 initState).1) := by
  refine ⟨rfl, by decide, rfl, by decide⟩

/-- A reachable mid-shot_detected snapshot: the launch monitor is Processing,
the worker has been joined (the recording flag is back to False), and the
temp recording is still on disk awaiting extraction. -/
def sProc : CtrlState :=
  { recording := false
    lmState := LMState.processing
    lmTempFile := some { stem := "temp_lm_t0", ext := "mp4" }
    lmStartTime := some 0
    lmCancelEvent := true
    files := [{ stem := "temp_lm_t0", ext := "mp4" }] }

/-- Claim C3 (counterexample).  capture_swing only tests the recording flag
(line 112) and never consults the launch-monitor state: called while the
launch monitor is Processing with the flag clear, it is not rejected — it
proceeds, records, writes the file and its sidecar and returns the path. -/
theorem C3_processing_call_not_rejected :
    sProc.lmState = LMState.processing
    ∧ sProc.recording = false
    ∧ (capture_swing cfgM "t1" none RecOutcome.ok RecOutcome.ok sProc).2
        = some { stem := "swing_t1", ext := "mp4" }
    ∧ ({ stem := "swing_t1", ext := "mp4" } : FsPath)
        ∈ (capture_swing cfgM "t1" none RecOutcome.ok RecOutcome.ok sProc).1.files := by
  refine ⟨rfl, rfl, by decide, by decide⟩

/-- Claim C3 (amended).  capture_swing is rejected with no side effects
exactly when the single-shot recording flag is set; the launch-monitor state
is never consulted.  While the flag is set (as it is while the
record call of the worker is running) the call returns the busy failure and changes
nothing. -/
theorem C3_busy_flag_rejects (cfg : Config) (ts : String)
    (customName : Option String) (recO metaO : RecOutcome) (s : CtrlState)
    (h : s.recording = true) :
    capture_swing cfg ts customName recO metaO s = (s, none) := by
  simp [capture_swing, h]

/-- Witness for C3_busy_flag_rejects at a concrete busy state. -/
theorem C3_busy_flag_rejects_witness :
    ({ initState with recording := true } : CtrlState).recording = true
    ∧ capture_swing cfgM "t1" none RecOutcome.ok RecOutcome.ok
        { initState with recording := true }
      = ({ initState with recording := true }, none) :=
  ⟨rfl, C3_busy_flag_rejects cfgM "t1" none RecOutcome.ok RecOutcome.ok
    { initState with recording := true } rfl⟩

/-- Claim C4 (confirmed).  cancel_launch_monitor always ends with state
Idle; a second call returns the neutral already-idle result and changes
nothing; called when already Idle it returns already-idle without touching
the state; from any non-Idle state it reports cancelled, clears the temp
file path and arm timestamp, and the file at the temp path no longer
exists. -/
theorem C4_cancel_idempotent_and_cleans (s : CtrlState) (hnd : s.files.Nodup) :
    ((cancel_launch_monitor s).1.lmState = LMState.idle)
    ∧ cancel_launch_monitor (cancel_launch_monitor s).1
        = ((cancel_launch_monitor s).1, CancelResult.alreadyIdle)
    ∧ (s.lmState = LMState.idle →
        cancel_launch_monitor s = (s, CancelResult.alreadyIdle))
    ∧ (s.lmState ≠ LMState.idle →
        (cancel_launch_monitor s).2 = CancelResult.cancelled
        ∧ (cancel_launch_monitor s).1.lmTempFile = none
        ∧ (cancel_launch_monitor s).1.lmStartTime = none
        ∧ ∀ f, s.lmTempFile = some f → f ∉ (cancel_launch_monitor s).1.files) := by
  by_cases h : s.lmState = LMState.idle
  · refine ⟨by simp [cancel_launch_monitor, h], ?_, ?_, ?_⟩
    · simp [cancel_launch_monitor, h]
    · intro _; simp [cancel_launch_monitor, h]
    · intro hne; exact absurd h hne
  · refine ⟨by simp [cancel_launch_monitor, h], ?_, ?_, ?_⟩
    · simp [cancel_launch_monitor, h]
    · intro hidle; exact absurd hidle h
    · intro _
      refine ⟨by simp [cancel_launch_monitor, h], by simp [cancel_launch_monitor, h],
        by simp [cancel_launch_monitor, h], ?_⟩
      intro f hf
      simp only [cancel_launch_monitor, h, if_false]
      simp only [hf]
      exact not_mem_removeIfExists f hnd

/-- Witness for C4_cancel_idempotent_and_cleans at a concrete armed state
with a duplicate-free file list. -/
theorem C4_cancel_idempotent_and_cleans_witness :
    ((arm_launch_monitor cfgM "t0" 0 initState).1.files.Nodup)
    ∧ (((cancel_launch_monitor (arm_launch_monitor cfgM "t0" 0 initState).1).1.lmState
          = LMState.idle)
       ∧ cancel_launch_monitor
            (cancel_launch_monitor (arm_launch_monitor cfgM "t0" 0 initState).1).1
          = ((cancel_launch_monitor (arm_launch_monitor cfgM "t0" 0 initState).1).1,
             CancelResult.alreadyIdle)
       ∧ ((arm_launch_monitor cfgM "t0" 0 initState).1.lmState = LMState.idle →
            cancel_launch_monitor (arm_launch_monitor cfgM "t0" 0 initState).1
              = ((arm_launch_monitor cfgM "t0" 0 initState).1, CancelResult.alreadyIdle))
       ∧ ((arm_launch_monitor cfgM "t0" 0 initState).1.lmState ≠ LMState.idle →
            (cancel_launch_monitor (arm_launch_monitor cfgM "t0" 0 initState).1).2
              = CancelResult.cancelled
            ∧ (cancel_launch_monitor (arm_launch_monitor cfgM "t0" 0 initState).1).1.lmTempFile
              = none
            ∧ (cancel_launch_monitor (arm_launch_monitor cfgM "t0" 0 initState).1).1.lmStartTime
              = none
            ∧ ∀ f, (arm_launch_monitor cfgM "t0" 0 initState).1.lmTempFile = some f →
                f ∉ (cancel_launch_monitor (arm_launch_monitor cfgM "t0" 0 initState).1).1.files)) :=
  ⟨List.nodup_nil, C4_cancel_idempotent_and_cleans _ List.nodup_nil⟩

/-- Claim C5 (confirmed).  _extract_clip returns True exactly when the
external ffmpeg process exits with status zero, and only then is the input
deleted; on nonzero exit, on the 30s timeout, and on a launch failure it
returns False and leaves the filesystem, in particular the input, exactly as
it was. -/
theorem C5_extract_tail_contract (input output : FsPath) (files : List FsPath)
    (proc : ProcOutcome) (hnd : files.Nodup) :
    ((extract_clip input output files proc).1 = true ↔ proc = ProcOutcome.exit 0)
    ∧ (proc = ProcOutcome.exit 0 →
        input ∉ (extract_clip input output files proc).2)
    ∧ (proc ≠ ProcOutcome.exit 0 →
        (extract_clip input output files proc).2 = files) := by
  match proc with
  | ProcOutcome.exit code =>
    by_cases hc : code = 0
    · subst hc
      refine ⟨by simp [extract_clip], ?_, ?_⟩
      · intro _
        simp only [extract_clip, if_pos rfl]
        have hnd1 : (writeFile output files).Nodup := by
          unfold writeFile
          by_cases ho : output ∈ files
          · simpa [ho] using hnd
          · simp only [ho, if_false]
            exact List.nodup_cons.mpr ⟨ho, hnd⟩
        exact not_mem_removeIfExists input hnd1
      · intro hfalse; exact absurd rfl hfalse
    · refine ⟨?_, ?_, ?_⟩
      · simp [extract_clip, hc]
      · intro heq
        simp only [ProcOutcome.exit.injEq] at heq
        exact absurd heq hc
      · intro _; simp [extract_clip, hc]
  | ProcOutcome.timeout =>
    refine ⟨by simp [extract_clip], ?_, ?_⟩
    · intro heq; cases heq
    · intro _; simp [extract_clip]
  | ProcOutcome.launchFailure =>
    refine ⟨by simp [extract_clip], ?_, ?_⟩
    · intro heq; cases heq
    · intro _; simp [extract_clip]

/-- Witness for C5_extract_tail_contract at a concrete input and outcome. -/
theorem C5_extract_tail_contract_witness :
    ([({ stem := "temp_lm_t0", ext := "mp4" } : FsPath)].Nodup)
    ∧ (((extract_clip { stem := "temp_lm_t0", ext := "mp4" }
          { stem := "swing_t1", ext := "mp4" }
          [{ stem := "temp_lm_t0", ext := "mp4" }] (ProcOutcome.exit 0)).1 = true
        ↔ ProcOutcome.exit 0 = ProcOutcome.exit 0)
       ∧ (ProcOutcome.exit 0 = ProcOutcome.exit 0 →
           ({ stem := "temp_lm_t0", ext := "mp4" } : FsPath)
             ∉ (extract_clip { stem := "temp_lm_t0", ext := "mp4" }
                 { stem := "swing_t1", ext := "mp4" }
                 [{ stem := "temp_lm_t0", ext := "mp4" }] (ProcOutcome.exit 0)).2)
       ∧ ((ProcOutcome.exit 0 : ProcOutcome) ≠ ProcOutcome.exit 0 →
           (extract_clip { stem := "temp_lm_t0", ext := "mp4" }
             { stem := "swing_t1", ext := "mp4" }
             [{ stem := "temp_lm_t0", ext := "mp4" }] (ProcOutcome.exit 0)).2
           = [{ stem := "temp_lm_t0", ext := "mp4" }])) :=
  ⟨by decide, C5_extract_tail_contract _ _ _ _ (by decide)⟩

/-- Claim C6 (code bug).  On a worker timeout the state does return to Idle
and the transients are cleared with no caller action, but the claimed
temp-file deletion misses the actual recording whenever the configured
format is h264 (the default): every backend records to the mp4-normalized
path while the cleanup only removes the stored .h264 path, which never
exists, so the recording is orphaned.  With the mp4 format the paths agree
and the recording is deleted as claimed. -/
theorem C6_timeout_cleanup_misses_normalized_file :
    ((lmWorker RecOutcome.ok (arm_launch_monitor cfgH "t0" 0 initState).1).lmState
        = LMState.idle
     ∧ (lmWorker RecOutcome.ok (arm_launch_monitor cfgH "t0" 0 initState).1).lmTempFile
        = none
     ∧ (lmWorker RecOutcome.ok (arm_launch_monitor cfgH "t0" 0 initState).1).lmStartTime
        = none
     ∧ ({ stem := "temp_lm_t0", ext := "mp4" } : FsPath)
        ∈ (lmWorker RecOutcome.ok (arm_launch_monitor cfgH "t0" 0 initState).1).files)
    ∧ ((lmWorker RecOutcome.ok (arm_launch_monitor cfgM "t0" 0 initState).1).lmState
        = LMState.idle
       ∧ (lmWorker RecOutcome.ok (arm_launch_monitor cfgM "t0" 0 initState).1).lmTempFile
        = none
       ∧ (lmWorker RecOutcome.ok (arm_launch_monitor cfgM "t0" 0 initState).1).lmStartTime
        = none
       ∧ (lmWorker RecOutcome.ok (arm_launch_monitor cfgM "t0" 0 initState).1).files
        = []) := by
  refine ⟨⟨rfl, rfl, rfl, by decide⟩, ⟨rfl, rfl, rfl, by decide⟩⟩

/-- Claim C7 (confirmed).  If backend.record raises inside capture_swing,
the exception is caught, the recording flag is cleared, the failure is the
return value of the call (None), and no file and in particular no metadata
sidecar is written. -/
theorem C7_record_failure_caught (cfg : Config) (ts : String)
    (customName : Option String) (metaO : RecOutcome) (s : CtrlState)
    (h : s.recording = false) :
    (capture_swing cfg ts customName RecOutcome.exn metaO s).2 = none
    ∧ (capture_swing cfg ts customName RecOutcome.exn metaO s).1.recording = false
    ∧ (capture_swing cfg ts customName RecOutcome.exn metaO s).1.files = s.files := by
  simp [capture_swing, h]

/-- Witness for C7_record_failure_caught at the initial state. -/
theorem C7_record_failure_caught_witness :
    (initState.recording = false)
    ∧ ((capture_swing cfgM "t1" none RecOutcome.exn RecOutcome.ok initState).2 = none
       ∧ (capture_swing cfgM "t1" none RecOutcome.exn RecOutcome.ok initState).1.recording
          = false
       ∧ (capture_swing cfgM "t1" none RecOutcome.exn RecOutcome.ok initState).1.files
          = initState.files) :=
  ⟨rfl, C7_record_failure_caught cfgM "t1" none RecOutcome.ok initState rfl⟩

/-- Claim C8 (counterexample).  From the initial state, a capture whose
recording succeeds but whose metadata write raises returns None — the very
value the caller treats as a failed capture — even though the recorded video
file exists; the capture does not complete successfully as the claim
states. -/
theorem C8_metadata_failure_fails_capture :
    (capture_swing cfgM "t1" none RecOutcome.ok RecOutcome.exn initState).2 = none
    ∧ ({ stem := "swing_t1", ext := "mp4" } : FsPath)
        ∈ (capture_swing cfgM "t1" none RecOutcome.ok RecOutcome.exn initState).1.files
    ∧ sidecar { stem := "swing_t1", ext := "mp4" }
        ∉ (capture_swing cfgM "t1" none RecOutcome.ok RecOutcome.exn initState).1.files := by
  refine ⟨rfl, by decide, by decide⟩

/-- Claim C8 (amended).  _save_metadata has no handler of its own, so its
I/O errors propagate to capture_swing; there the general exception handler
catches them, clears the flag and returns None: a capture whose recording
succeeded is reported as failed when the metadata write fails, with the
video file on disk and no sidecar written. -/
theorem C8_metadata_error_propagates_and_capture_reports_failure
    (cfg : Config) (ts : String) (customName : Option String) (s : CtrlState)
    (h : s.recording = false) :
    (capture_swing cfg ts customName RecOutcome.ok RecOutcome.exn s).2 = none
    ∧ (capture_swing cfg ts customName RecOutcome.ok RecOutcome.exn s).1.recording = false
    ∧ normalizeExt (outputPathFor cfg (match customName with
        | some n => n
        | none => "swing_" ++ ts))
        ∈ (capture_swing cfg ts customName RecOutcome.ok RecOutcome.exn s).1.files
    ∧ (sidecar (normalizeExt (outputPathFor cfg (match customName with
          | some n => n
          | none => "swing_" ++ ts))) ∉ s.files →
        sidecar (normalizeExt (outputPathFor cfg (match customName with
          | some n => n
          | none => "swing_" ++ ts)))
          ∉ (capture_swing cfg ts customName RecOutcome.ok RecOutcome.exn s).1.files) := by
  refine ⟨by simp [capture_swing, h], by simp [capture_swing, h], ?_, ?_⟩
  · simp only [capture_swing, h, Bool.false_eq_true, if_false]
    exact mem_writeFile_self _ _
  · intro hns hmem
    simp only [capture_swing, h, Bool.false_eq_true, if_false] at hmem
    rcases mem_writeFile.mp hmem with heq | hmem2
    · have hext := congrArg FsPath.ext heq
      simp only [sidecar, outputPath_ext] at hext
      exact absurd hext (by decide)
    · exact hns hmem2

/-- Witness for C8_metadata_error_propagates_and_capture_reports_failure at
the initial state. -/
theorem C8_metadata_error_propagates_witness :
    (initState.recording = false)
    ∧ ((capture_swing cfgM "t1" none RecOutcome.ok RecOutcome.exn initState).2 = none
       ∧ (capture_swing cfgM "t1" none RecOutcome.ok RecOutcome.exn initState).1.recording
          = false
       ∧ normalizeExt (outputPathFor cfgM (match (none : Option String) with
            | some n => n
            | none => "swing_" ++ "t1"))
          ∈ (capture_swing cfgM "t1" none RecOutcome.ok RecOutcome.exn initState).1.files
       ∧ (sidecar (normalizeExt (outputPathFor cfgM (match (none : Option String) with
              | some n => n
              | none => "swing_" ++ "t1"))) ∉ initState.files →
           sidecar (normalizeExt (outputPathFor cfgM (match (none : Option String) with
              | some n => n
              | none => "swing_" ++ "t1")))
            ∉ (capture_swing cfgM "t1" none RecOutcome.ok RecOutcome.exn initState).1.files)) :=
  ⟨rfl, C8_metadata_error_propagates_and_capture_reports_failure cfgM "t1" none initState rfl⟩

/-- Claim C9 (counterexample).  DemoBackend.record receives the cancel
event but never consults it: with the signal set from the very first moment
it still produces every one of its fps times duration frames, behaving
exactly as with no signal at all, whereas an early-returning implementation
(PiCamera2 shown for contrast) stops at its first poll. -/
theorem C9_demo_backend_ignores_cancel :
    demoRecordFrames 30 2 (some (fun _ => true)) = 60
    ∧ demoRecordFrames 30 2 (some (fun _ => true)) = demoRecordFrames 30 2 none
    ∧ piRecordElapsed (some (fun _ => true)) 20 = 0 := by
  refine ⟨by simp [demoRecordFrames_eq], by simp [demoRecordFrames_eq], ?_⟩
  have h := piPollLoop_early (fun _ => true) 0 20 0 (by omega) rfl
    (fun i hi => absurd hi (Nat.not_lt_zero i))
  simpa [piRecordElapsed] using h

/-- Claim C9 (amended).  With a cancel signal supplied, PiCamera2Backend
polls it once per 100ms sleep and OpenCVBackend once per frame iteration,
and both return at the first poll at which the signal is set; DemoBackend
ignores the signal and always produces its full fps times duration frames. -/
theorem C9_pi_cv_poll_early_demo_runs_full (c : Nat → Bool) (d t0 : Nat)
    (h1 : t0 < d) (h2 : c t0 = true) (h3 : ∀ i, i < t0 → c i = false) :
    piRecordElapsed (some c) d = t0
    ∧ cvRecordIters (some c) (fun _ => true) d = t0
    ∧ ∀ fps dur, demoRecordFrames fps dur (some c) = fps * dur := by
  refine ⟨?_, ?_, fun fps dur => demoRecordFrames_eq fps dur (some c)⟩
  · have h := piPollLoop_early c t0 d 0 h1 (by simpa using h2)
      (fun i hi => by simpa using h3 i hi)
    simpa [piRecordElapsed] using h
  · have h := cvLoop_early c t0 d 0 h1 (by simpa using h2)
      (fun i hi => by simpa using h3 i hi)
    simpa [cvRecordIters] using h

/-- Witness for C9_pi_cv_poll_early_demo_runs_full: the signal first set at
tick 3 of a 10-tick recording stops PiCamera2 and OpenCV at tick 3. -/
theorem C9_pi_cv_poll_early_demo_runs_full_witness :
    (3 < 10)
    ∧ ((fun t => decide (t = 3)) 3 = true)
    ∧ (∀ i, i < 3 → (fun t => decide (t = 3)) i = false)
    ∧ (piRecordElapsed (some (fun t => decide (t = 3))) 10 = 3
       ∧ cvRecordIters (some (fun t => decide (t = 3))) (fun _ => true) 10 = 3
       ∧ ∀ fps dur, demoRecordFrames fps dur (some (fun t => decide (t = 3)))
            = fps * dur) :=
  ⟨by decide, by decide, by decide,
   C9_pi_cv_poll_early_demo_runs_full _ 10 3 (by decide) (by decide) (by decide)⟩

/-- Deleting the glob-matching recordings never removes a file whose stem
does not start with swing_, nor its sidecar. -/
theorem mem_foldl_delete_of_no_glob (q : FsPath)
    (hq : strStartsWith "swing_" q.stem = false) :
    ∀ (todo files : List FsPath),
      (∀ p ∈ todo, strStartsWith "swing_" p.stem = true) →
      q ∈ files → q ∈ todo.foldl delete_recording files := by
  intro todo
  induction todo with
  | nil =>
    intro files _ hmem
    simpa using hmem
  | cons p ps ih =>
    intro files hall hmem
    simp only [List.foldl_cons]
    refine ih _ (fun r hr => hall r (List.mem_cons_of_mem _ hr)) ?_
    have hps : strStartsWith "swing_" p.stem = true :=
      hall p (List.mem_cons_self _ _)
    have hqp : q ≠ p := by
      intro he
      rw [he] at hq
      rw [hq] at hps
      exact Bool.false_ne_true hps
    have hqsp : q ≠ sidecar p := by
      intro he
      have : q.stem = p.stem := by rw [he]; rfl
      rw [this] at hq
      rw [hq] at hps
      exact Bool.false_ne_true hps
    unfold delete_recording
    by_cases hp : p ∈ files
    · simp only [hp, if_true]
      exact (List.mem_erase_of_ne hqsp).mpr ((List.mem_erase_of_ne hqp).mpr hmem)
    · simp only [hp, if_false]
      exact hmem

/-- Claim C10 (confirmed).  A capture made with a custom name whose stem
does not start with swing_ writes the video and its sidecar to disk, yet the
video is never listed by get_recordings and both the video and the sidecar
survive delete_all_recordings, because both operations enumerate only glob
matches of swing_ names with a video suffix. -/
theorem C10_custom_capture_invisible (cfg : Config) (ts name : String)
    (s : CtrlState) (hrec : s.recording = false)
    (hname : strStartsWith "swing_" name = false) :
    normalizeExt (outputPathFor cfg name)
      ∈ (capture_swing cfg ts (some name) RecOutcome.ok RecOutcome.ok s).1.files
    ∧ sidecar (normalizeExt (outputPathFor cfg name))
      ∈ (capture_swing cfg ts (some name) RecOutcome.ok RecOutcome.ok s).1.files
    ∧ normalizeExt (outputPathFor cfg name)
      ∉ get_recordings (capture_swing cfg ts (some name) RecOutcome.ok RecOutcome.ok s).1.files
    ∧ sidecar (normalizeExt (outputPathFor cfg name))
      ∉ get_recordings (capture_swing cfg ts (some name) RecOutcome.ok RecOutcome.ok s).1.files
    ∧ normalizeExt (outputPathFor cfg name)
      ∈ delete_all_recordings
          (capture_swing cfg ts (some name) RecOutcome.ok RecOutcome.ok s).1.files
    ∧ sidecar (normalizeExt (outputPathFor cfg name))
      ∈ delete_all_recordings
          (capture_swing cfg ts (some name) RecOutcome.ok RecOutcome.ok s).1.files := by
  have hstem : (normalizeExt (outputPathFor cfg name)).stem = name :=
    outputPath_stem cfg name
  have hvmem : normalizeExt (outputPathFor cfg name)
      ∈ (capture_swing cfg ts (some name) RecOutcome.ok RecOutcome.ok s).1.files := by
    simp only [capture_swing, hrec, Bool.false_eq_true, if_false]
    exact mem_writeFile.mpr (Or.inr (mem_writeFile_self _ _))
  have hsmem : sidecar (normalizeExt (outputPathFor cfg name))
      ∈ (capture_swing cfg ts (some name) RecOutcome.ok RecOutcome.ok s).1.files := by
    simp only [capture_swing, hrec, Bool.false_eq_true, if_false]
    exact mem_writeFile_self _ _
  have hnoglobv : globSwingMatch (normalizeExt (outputPathFor cfg name)) = false := by
    simp only [globSwingMatch, hstem, hname]
  have hnoglobs : globSwingMatch (sidecar (normalizeExt (outputPathFor cfg name))) = false := by
    simp only [globSwingMatch, sidecar, hstem, hname]
  refine ⟨hvmem, hsmem, ?_, ?_, ?_, ?_⟩
  · intro hmem
    have := (List.mem_filter.mp hmem).2
    rw [Bool.and_eq_true] at this
    rw [hnoglobv] at this
    exact Bool.false_ne_true this.1
  · intro hmem
    have := (List.mem_filter.mp hmem).2
    rw [Bool.and_eq_true] at this
    rw [hnoglobs] at this
    exact Bool.false_ne_true this.1
  · unfold delete_all_recordings
    refine mem_foldl_delete_of_no_glob _ (by rw [hstem]; exact hname) _ _ ?_ hvmem
    intro p hp
    have := (List.mem_filter.mp hp).2
    rw [Bool.and_eq_true] at this
    rw [Bool.and_eq_true] at this
    exact this.1.1
  · unfold delete_all_recordings
    refine mem_foldl_delete_of_no_glob _ ?_ _ _ ?_ hsmem
    · show strStartsWith "swing_" (sidecar (normalizeExt (outputPathFor cfg name))).stem = false
      rw [show (sidecar (normalizeExt (outputPathFor cfg name))).stem
            = (normalizeExt (outputPathFor cfg name)).stem from rfl, hstem]
      exact hname
    · intro p hp
      have := (List.mem_filter.mp hp).2
      rw [Bool.and_eq_true] at this
      rw [Bool.and_eq_true] at this
      exact this.1.1

/-- Witness for C10_custom_capture_invisible: a capture named mycap from the
initial state. -/
theorem C10_custom_capture_invisible_witness :
    (initState.recording = false)
    ∧ (strStartsWith "swing_" "mycap" = false)
    ∧ (normalizeExt (outputPathFor cfgM "mycap")
        ∈ (capture_swing cfgM "t1" (some "mycap") RecOutcome.ok RecOutcome.ok initState).1.files
       ∧ sidecar (normalizeExt (outputPathFor cfgM "mycap"))
        ∈ (capture_swing cfgM "t1" (some "mycap") RecOutcome.ok RecOutcome.ok initState).1.files
       ∧ normalizeExt (outputPathFor cfgM "mycap")
        ∉ get_recordings
            (capture_swing cfgM "t1" (some "mycap") RecOutcome.ok RecOutcome.ok initState).1.files
       ∧ sidecar (normalizeExt (outputPathFor cfgM "mycap"))
        ∉ get_recordings
            (capture_swing cfgM "t1" (some "mycap") RecOutcome.ok RecOutcome.ok initState).1.files
       ∧ normalizeExt (outputPathFor cfgM "mycap")
        ∈ delete_all_recordings
            (capture_swing cfgM "t1" (some "mycap") RecOutcome.ok RecOutcome.ok initState).1.files
       ∧ sidecar (normalizeExt (outputPathFor cfgM "mycap"))
        ∈ delete_all_recordings
            (capture_swing cfgM "t1" (some "mycap") RecOutcome.ok RecOutcome.ok initState).1.files) :=
  ⟨rfl, by decide,
   C10_custom_capture_invisible cfgM "t1" "mycap" initState rfl (by decide)⟩

end GolfCam
